import Mathlib

/-!
# Verification of the prysk command-line layer (`prysk/cli.py`)

A shallow embedding of the command-line interface module of the prysk
functional-test runner.  Python functions become Lean functions; the side
effects the CLI performs (stream writes, file creation and removal, the
sandbox temp directory, invoking the external `patch` command, invoking a
deferred per-file test callable) are recorded in an explicit effect log
(`Eff`).  Collaborator modules that are not part of the CLI module
(`prysk.run.runtests`, `prysk.settings`, `prysk.process.execute`,
`prysk.xunit.runxunit`) are treated as inputs: their observable outputs
(the stream of per-file deferred results, the merged settings, the patch
subprocess exit code) are parameters of the embedded functions.
-/

namespace Prysk

/-- Python `str.strip()` restricted to whitespace: drop leading and trailing
whitespace characters. -/
def pyStrip (s : String) : String :=
  String.mk (((s.toList.dropWhile Char.isWhitespace).reverse.dropWhile
    Char.isWhitespace).reverse)

/-- Python `str.lower()` (ASCII-adequate model via `Char.toLower`). -/
def pyLower (s : String) : String :=
  String.mk (s.toList.map Char.toLower)

/-- Does `needle` occur at the start of `hay`? (helper for substring search). -/
def startsWithL : List Char → List Char → Bool
  | [], _ => true
  | _ :: _, [] => false
  | a :: as, b :: bs => a == b && startsWithL as bs

/-- Python's `needle in hay` on strings: substring occurrence. -/
def occursIn : List Char → List Char → Bool
  | n, [] => startsWithL n []
  | n, h :: t => startsWithL n (h :: t) || occursIn n t

/-- Python truthiness of an optional string: `None` and `""` are falsy. -/
def pyTruthy : Option String → Bool
  | none => false
  | some s => !(s == "")

/-- One observable side effect of the CLI layer.  `stdoutWrite` is
`sys.stdout.write` of a `str`; `stdoutWriteB` is `sys.stdout.buffer.write`
of a `bytes` line (used only for raw diff lines); `writeFile` is the
creation of the `.err` sibling file with the given lines; `runTest` is the
invocation of a per-file deferred test callable; `runPatch` is the
invocation of `execute([patchcmd, "-p0"], stdin=diff)`. -/
inductive Eff where
  | stderrWrite (s : String)
  | stdoutWrite (s : String)
  | stdoutWriteB (s : String)
  | mkdtemp (dir : String)
  | rmtree (dir : String)
  | writeFile (path : String) (lines : List String)
  | removeFile (path : String)
  | runTest (path : String)
  | runPatch (path : String)
  deriving DecidableEq, Repr

/-- The triple returned by a per-file test callable:
`(reference_output, post_output, diff)` of `prysk.run.runtests`'s deferred
result.  `refout = none` is the "empty test" state, `postout = none` the
"skipped" state; `diff = []` means pass. -/
structure TestResult where
  refout : Option (List String)
  postout : Option (List String)
  diff : List String
  deriving DecidableEq, Repr

/-- Model of `_log(msg, verbosemsg, verbose)`: if `verbose` the verbose message is
selected; a `None` (selected) message writes nothing. -/
def _log (msg : Option String) (verbosemsg : Option String)
    (verbose : Bool) : List Eff :=
  match (if verbose then verbosemsg else msg) with
  | some s => [Eff.stdoutWrite s]
  | none => []

/-- Model of `_patch(cmd, diff)`: run `patch -p0` on the diff and report whether its
exit status is `0`.  The subprocess exit code is the parameter. -/
def _patch (retcode : Int) : Bool :=
  retcode == 0

/-- The `default = [c for c in answers if c.isupper()]` list of `_prompt`. -/
def promptDefault (answers : String) : List Char :=
  answers.toList.filter Char.isUpper

/-- The `while True` read loop of `_prompt` for `auto = None`, over the
finite list of lines stdin will yield; after the list is exhausted
`readline` returns `""` forever, so the default answer is returned when one
exists and the loop never terminates (modelled `none`) otherwise. -/
def promptLoop (answers : String) : List String → Option String
  | [] =>
    match promptDefault answers with
    | c :: _ => some (String.mk [c])
    | [] => none
  | line :: rest =>
    let a := pyLower (pyStrip line)
    if a = "" then
      match promptDefault answers with
      | c :: _ => some (String.mk [c])
      | [] => promptLoop answers rest
    else if occursIn a.toList (pyLower answers).toList then
      some a
    else
      promptLoop answers rest

/-- Model of `_prompt(question, answers, auto)`: with `auto` set the question is
answered automatically with `auto` without reading stdin; otherwise the
read loop runs.  The question string only affects the prompt text written
to stdout, not the returned answer. -/
def _prompt (_question : String) (answers : String) (auto : Option String)
    (stdin : List String) : Option String :=
  match auto with
  | some a => some a
  | none => promptLoop answers stdin

/-- The `.err` sibling path of a test file: `Path(f"{path}" + ".err")`. -/
def errpathOf (path : String) : String :=
  path ++ ".err"

/-- One entry of the stream `runcli` iterates over: the test path, the
deferred result its callable produces, and the ambient facts the wrapper's
effects depend on — whether `<path>.err` already exists when the wrapper
runs, the stdin lines available to the interactive prompt, and the exit
code of the external `patch` command were it invoked. -/
structure WrapInput where
  path : String
  result : TestResult
  errExists : Bool
  stdin : List String
  patchRetcode : Int
  deriving DecidableEq, Repr

/-- The keyword arguments of `runcli`. -/
structure CliConfig where
  quiet : Bool
  verbose : Bool
  patchcmd : Option String
  answer : Option String
  deriving DecidableEq, Repr

/-- What one call of `runcli`'s `testwrapper` closure produces: its effect
log, whether it incremented the `skipped` counter, whether it incremented
the `failed` counter, and the `(refout, postout, diff)` triple it returns
(identical in content to the inner test's triple: the only reassignment the
wrapper performs copies the diff line by line). -/
structure WrapOut where
  effs : List Eff
  skippedInc : Bool
  failedInc : Bool
  ret : TestResult
  deriving DecidableEq, Repr

/-- The `testwrapper` closure of `runcli`, for one test.  Mirrors the
source line by line: header log, call of the inner test, the
empty/skipped/passed/failed branches, `.err` file handling, diff printing
and the interactive merge.  (The verbose header renders the last two path
components in the source; the path string stands for that rendering
here.) -/
def testwrapper (cfg : CliConfig) (w : WrapInput) : WrapOut :=
  let hdr := _log none (some (w.path ++ ": ")) cfg.verbose ++
    [Eff.runTest w.path]
  match w.result.refout with
  | none =>
    ⟨hdr ++ _log (some "s") (some "empty\n") cfg.verbose, true, false,
      w.result⟩
  | some _ =>
    let errpath := errpathOf w.path
    match w.result.postout with
    | none =>
      ⟨hdr ++ _log (some "s") (some "skipped\n") cfg.verbose, true, false,
        w.result⟩
    | some postout =>
      if w.result.diff.isEmpty then
        ⟨hdr ++ _log (some ".") (some "passed\n") cfg.verbose ++
          (if w.errExists then [Eff.removeFile errpath] else []),
          false, false, w.result⟩
      else
        ⟨hdr ++ _log (some "!") (some "failed\n") cfg.verbose ++
          (if cfg.quiet then [] else _log (some "\n") none cfg.verbose) ++
          [Eff.writeFile errpath postout] ++
          (if cfg.quiet then []
           else
             w.result.diff.map Eff.stdoutWriteB ++
             (if cfg.patchcmd.isSome &&
                 (_prompt "Accept this change?" "yN" cfg.answer w.stdin ==
                   some "y") then
                [Eff.runPatch w.path] ++
                (if _patch w.patchRetcode then
                   _log none (some (w.path ++ ": merged output\n"))
                     cfg.verbose ++ [Eff.removeFile errpath]
                 else
                   _log (some (w.path ++ ": merge failed\n")) none false)
              else [])),
          false, true, w.result⟩

/-- Model of `runcli(tests, ...)`: each wrapper runs once, in order (as `main`'s
consuming loop drives the generator); afterwards, when at least one test
ran, the summary line is printed from the accumulated counters. -/
def runcli (cfg : CliConfig) (tests : List WrapInput) :
    List Eff × List TestResult :=
  let wrapped := tests.map (fun w => testwrapper cfg w)
  let total := tests.length
  let skipped := (wrapped.filter (fun o => o.skippedInc)).length
  let failed := (wrapped.filter (fun o => o.failedInc)).length
  let summary :=
    if total > 0 then
      _log (some "\n") none cfg.verbose ++
      [Eff.stdoutWrite ("# Ran " ++ toString total ++ " tests, " ++
        toString skipped ++ " skipped, " ++ toString failed ++
        " failed.\n")]
    else []
  ((wrapped.map (fun o => o.effs)).flatten ++ summary,
    wrapped.map (fun o => o.ret))

/-- The merged settings `main` works with (command line merged with the
configuration file by `prysk.settings.merge_settings`). -/
structure Settings where
  quiet : Bool
  verbose : Bool
  interactive : Bool
  debug : Bool
  yes : Bool
  no : Bool
  preserve_env : Bool
  keep_tmpdir : Bool
  shell : String
  shell_opts : Option String
  indent : Nat
  xunit_file : Option String
  tests : List String
  deriving DecidableEq, Repr

/-- Model of `_conflicts(settings)`: the first pair of mutually exclusive options
both of which are set (Python truthiness for the option values), if any. -/
def _conflicts (s : Settings) : Option (String × String) :=
  let conflicts : List (String × Bool × String × Bool) :=
    [("--yes", s.yes, "--no", s.no),
     ("--quiet", s.quiet, "--interactive", s.interactive),
     ("--debug", s.debug, "--quiet", s.quiet),
     ("--debug", s.debug, "--interactive", s.interactive),
     ("--debug", s.debug, "--verbose", s.verbose),
     ("--debug", s.debug, "--xunit-file", pyTruthy s.xunit_file)]
  (conflicts.find? (fun c => c.2.1 && c.2.2.2)).map (fun c => (c.1, c.2.2.1))

/-- Modelled from the spec: `runxunit` (module `prysk.xunit`, not under
`src/`) is the structured-report exporter; it "consumes the same per-file
TestOutcome stream" and "the core has no dependency on it", so it yields
each outcome through unchanged and does not alter the aggregation. -/
def runxunit (results : List TestResult) : List TestResult :=
  results

/-- The facts about the environment `main` runs in, and the outputs of the
collaborator modules it calls: the config-file load outcome (`some msg`
when `load`/`settings_from` raises `ValueError msg`), the results of
`_which` for the shell and for `patch`, filesystem existence of test paths,
the name `tempfile.mkdtemp` returns, whether an exception escapes the
`try` block (e.g. raised by `runtests` or a test callable), and the stream
of per-file deferred results `runtests` yields. -/
structure MainEnv where
  cfgErr : Option String
  whichShell : Option String
  whichPatch : Option String
  pathExists : String → Bool
  tmpname : String
  raiseDuringRun : Bool
  outcomes : List WrapInput

/-- Text of `parser.format_usage()` of the argument parser. -/
def usage : String :=
  "usage: prysk [OPTIONS] TESTS...\n"

/-- The body of `main`'s `try` block: run the tests (wrapped by `runcli`
unless `--debug`, then by `runxunit` when `--xunit-file` is given), then
aggregate: no test yielded at all gives exit 2, otherwise the exit code is
1 exactly when some test's returned diff is non-empty.  An exception
escaping the block is `Except.error ()`. -/
def mainBody (s : Settings) (patchcmd answer : Option String)
    (env : MainEnv) : Except Unit Nat × List Eff :=
  if env.raiseDuringRun then (Except.error (), [])
  else
    let er : List Eff × List TestResult :=
      if s.debug then
        (env.outcomes.map (fun w => Eff.runTest w.path),
          env.outcomes.map (fun w => w.result))
      else
        let r := runcli { quiet := s.quiet, verbose := s.verbose,
                          patchcmd := patchcmd, answer := answer }
          env.outcomes
        if s.xunit_file.isSome then (r.1, runxunit r.2) else r
    let failed := er.2.any (fun r => !r.diff.isEmpty)
    if er.2.isEmpty then
      (Except.ok 2, er.1 ++ [Eff.stderrWrite "no tests found\n"])
    else
      (Except.ok (if failed then 1 else 0), er.1)

/-- Model of `main(argv)`: configuration loading, conflict check, shell lookup,
`patch` lookup under `--interactive`, discovery check, then the sandbox
temp directory is created, the `try` block runs, and the `finally` clause
keeps (announcing it) or recursively removes the temp directory on every
exit path.  The result is the exit code, or `Except.error ()` for an
escaping exception, paired with the effect log. -/
def main (s : Settings) (env : MainEnv) : Except Unit Nat × List Eff :=
  match env.cfgErr with
  | some ex =>
    (Except.ok 2,
      [Eff.stderrWrite (usage ++ "\n"),
       Eff.stderrWrite ("prysk: error: " ++ ex ++ "\n")])
  | none =>
    match _conflicts s with
    | some c =>
      (Except.ok 2,
        [Eff.stderrWrite ("options " ++ c.1 ++ " and " ++ c.2 ++
          " are mutually exclusive\n")])
    | none =>
      match env.whichShell with
      | none =>
        (Except.ok 2,
          [Eff.stderrWrite ("shell not found: " ++ s.shell ++ "\n")])
      | some _ =>
        if s.interactive && env.whichPatch.isNone then
          (Except.ok 2, [Eff.stderrWrite "patch(1) required for -i\n"])
        else
          match s.tests.filter (fun p => !(env.pathExists p)) with
          | bad :: _ =>
            (Except.ok 2,
              [Eff.stderrWrite ("no such file: " ++ bad ++ "\n")])
          | [] =>
            let answer : Option String :=
              if s.yes then some "y" else if s.no then some "n" else none
            let patchcmd : Option String :=
              if s.interactive then env.whichPatch else none
            let mb := mainBody s patchcmd answer env
            let finEffs :=
              if s.keep_tmpdir then
                [Eff.stdoutWrite ("# Kept temporary directory: " ++
                  env.tmpname ++ "\n")]
              else [Eff.rmtree env.tmpname]
            (mb.1, [Eff.mkdtemp env.tmpname] ++ mb.2 ++ finEffs)

/-- Effect classifier: is this the creation of a temp directory? -/
def isMkdtemp : Eff → Bool
  | Eff.mkdtemp _ => true
  | _ => false

/-- Effect classifier: the sandbox-lifecycle effects (`tempfile.mkdtemp`
and `shutil.rmtree`), which only `main` itself may perform. -/
def sandboxEff : Eff → Bool
  | Eff.mkdtemp _ => true
  | Eff.rmtree _ => true
  | _ => false

/-- Effect classifier: the effects the `runcli` wrapper layer may emit —
stdout writes, `.err` file writes and removals, running a test, running
`patch`; never a sandbox-lifecycle effect and never a stderr write. -/
def cliEff : Eff → Bool
  | Eff.mkdtemp _ => false
  | Eff.rmtree _ => false
  | Eff.stderrWrite _ => false
  | _ => true

/-- Concrete settings instance (all defaults) for instantiating theorems. -/
def sampleSettings : Settings := {
  quiet := false, verbose := false, interactive := false, debug := false,
  yes := false, no := false, preserve_env := false, keep_tmpdir := false,
  shell := "/bin/sh", shell_opts := none, indent := 2, xunit_file := none,
  tests := ["a.t", "b.t"] }

/-- Concrete passing test input for instantiating theorems. -/
def samplePass : WrapInput := {
  path := "a.t",
  result := { refout := some ["x\n"], postout := some ["x\n"], diff := [] },
  errExists := false, stdin := [], patchRetcode := 0 }

/-- Concrete failing test input for instantiating theorems. -/
def sampleFail : WrapInput := {
  path := "b.t",
  result := { refout := some ["x\n"], postout := some ["y\n"],
              diff := ["-x\n", "+y\n"] },
  errExists := false, stdin := [], patchRetcode := 1 }

/-- Concrete environment (both sample tests discovered) for instantiating
theorems. -/
def sampleEnv : MainEnv := {
  cfgErr := none, whichShell := some "/bin/sh", whichPatch := some "/bin/patch",
  pathExists := fun _ => true, tmpname := "/tmp/prysk-tests-x",
  raiseDuringRun := false, outcomes := [samplePass, sampleFail] }

/-- Concrete non-interactive `runcli` configuration for instantiating
theorems. -/
def sampleCfg : CliConfig :=
  { quiet := false, verbose := false, patchcmd := none, answer := none }

/-- Concrete interactive `runcli` configuration (patch available, `--yes`
answer) for instantiating theorems. -/
def sampleCfgPatch : CliConfig :=
  { quiet := false, verbose := false, patchcmd := some "/bin/patch",
    answer := some "y" }

/-! ## Structural lemmas about the wrapper layer -/

theorem log_mem (a b : Option String) (c : Bool) :
    ∀ e ∈ _log a b c, ∃ m, e = Eff.stdoutWrite m := by
  intro e he
  cases c
  · rcases a with _ | m
    · simp [_log] at he
    · simp [_log] at he
      exact ⟨m, he⟩
  · rcases b with _ | m
    · simp [_log] at he
    · simp [_log] at he
      exact ⟨m, he⟩

theorem log_all_cliEff (a b : Option String) (c : Bool) :
    (_log a b c).all cliEff = true := by
  cases c
  · rcases a with _ | m <;> rfl
  · rcases b with _ | m <;> rfl

theorem wrap_ret (cfg : CliConfig) (w : WrapInput) :
    (testwrapper cfg w).ret = w.result := by
  unfold testwrapper
  repeat' split
  all_goals rfl

theorem wrap_runTest (cfg : CliConfig) (w : WrapInput) :
    Eff.runTest w.path ∈ (testwrapper cfg w).effs := by
  unfold testwrapper
  repeat' split
  all_goals simp

theorem wrap_all_cliEff (cfg : CliConfig) (w : WrapInput) :
    (testwrapper cfg w).effs.all cliEff = true := by
  unfold testwrapper
  repeat' split
  all_goals
    simp [List.all_append, log_all_cliEff, cliEff, List.all_map,
      Function.comp]

theorem wrap_effs_cliEff (cfg : CliConfig) (w : WrapInput) :
    ∀ e ∈ (testwrapper cfg w).effs, cliEff e = true := by
  have h := List.all_eq_true.mp (wrap_all_cliEff cfg w)
  intro e he
  exact h e he

theorem runcli_ret (cfg : CliConfig) (ts : List WrapInput) :
    (runcli cfg ts).2 = ts.map (fun w => w.result) := by
  unfold runcli
  simp [List.map_map, Function.comp, wrap_ret]

theorem runcli_effs_cliEff (cfg : CliConfig) (ts : List WrapInput) :
    ∀ e ∈ (runcli cfg ts).1, cliEff e = true := by
  intro e he
  unfold runcli at he
  simp only [List.mem_append, List.mem_flatten, List.mem_map] at he
  rcases he with ⟨l, ⟨o, ⟨w, _, rfl⟩, rfl⟩, hel⟩ | hsum
  · exact wrap_effs_cliEff cfg w e hel
  · split at hsum
    · rcases List.mem_append.mp hsum with hl | hr
      · obtain ⟨m, rfl⟩ := log_mem _ _ _ e hl
        rfl
      · simp at hr
        subst hr
        rfl
    · simp at hsum

theorem runcli_runs_all (cfg : CliConfig) (ts : List WrapInput) :
    ∀ w ∈ ts, Eff.runTest w.path ∈ (runcli cfg ts).1 := by
  intro w hw
  unfold runcli
  refine List.mem_append.mpr (Or.inl (List.mem_flatten.mpr
    ⟨(testwrapper cfg w).effs, ?_, wrap_runTest cfg w⟩))
  exact List.mem_map.mpr ⟨testwrapper cfg w,
    List.mem_map.mpr ⟨w, hw, rfl⟩, rfl⟩

theorem cliEff_not_sandbox (e : Eff) (h : cliEff e = true) :
    sandboxEff e = false := by
  cases e <;> simp [cliEff, sandboxEff] at h ⊢

theorem not_sandbox_not_mkdtemp (e : Eff) (h : sandboxEff e = false) :
    isMkdtemp e = false := by
  cases e <;> simp [sandboxEff, isMkdtemp] at h ⊢

theorem mainBody_exit (s : Settings) (p a : Option String) (env : MainEnv)
    (hr : env.raiseDuringRun = false) :
    (mainBody s p a env).1 =
      (if env.outcomes.isEmpty then Except.ok 2
       else Except.ok
         (if env.outcomes.any (fun w => !w.result.diff.isEmpty) then 1
          else 0)) := by
  unfold mainBody
  by_cases hd : s.debug <;> by_cases hx : s.xunit_file.isSome <;>
    simp [hr, hd, hx, runcli_ret, runxunit, List.any_map, Function.comp] <;>
    (try (split <;> rfl))

theorem debug_effs_not_sandbox (outs : List WrapInput) :
    ∀ e ∈ outs.map (fun w => Eff.runTest w.path), sandboxEff e = false := by
  intro e he
  obtain ⟨w, _, rfl⟩ := List.mem_map.mp he
  rfl

theorem append_stderr_not_sandbox (l : List Eff) (msg : String)
    (hl : ∀ e ∈ l, sandboxEff e = false) :
    ∀ e ∈ l ++ [Eff.stderrWrite msg], sandboxEff e = false := by
  intro e he
  rcases List.mem_append.mp he with h | h
  · exact hl e h
  · simp at h
    subst h
    rfl

theorem mainBody_effs (s : Settings) (p a : Option String) (env : MainEnv) :
    ∀ e ∈ (mainBody s p a env).2, sandboxEff e = false := by
  intro e he
  unfold mainBody at he
  by_cases hr : env.raiseDuringRun
  · simp [hr] at he
  · simp only [hr, Bool.false_eq_true, if_false] at he
    by_cases hd : s.debug <;> by_cases hx : s.xunit_file.isSome <;>
      simp only [hd, hx, Bool.false_eq_true, if_false, if_true] at he <;>
      split at he <;>
      first
      | exact append_stderr_not_sandbox _ _ (debug_effs_not_sandbox _) e he
      | exact debug_effs_not_sandbox _ e he
      | exact append_stderr_not_sandbox _ _
          (fun x hx => cliEff_not_sandbox x (runcli_effs_cliEff _ _ x hx))
          e he
      | exact cliEff_not_sandbox e (runcli_effs_cliEff _ _ e he)

theorem main_run_eq (s : Settings) (env : MainEnv) (sh : String)
    (h1 : env.cfgErr = none) (h2 : _conflicts s = none)
    (h3 : env.whichShell = some sh)
    (h4 : (s.interactive && env.whichPatch.isNone) = false)
    (h5 : s.tests.filter (fun p => !(env.pathExists p)) = []) :
    main s env =
      ((mainBody s (if s.interactive then env.whichPatch else none)
         (if s.yes then some "y" else if s.no then some "n" else none)
         env).1,
       [Eff.mkdtemp env.tmpname] ++
         (mainBody s (if s.interactive then env.whichPatch else none)
           (if s.yes then some "y" else if s.no then some "n" else none)
           env).2 ++
         (if s.keep_tmpdir then
            [Eff.stdoutWrite ("# Kept temporary directory: " ++
              env.tmpname ++ "\n")]
          else [Eff.rmtree env.tmpname])) := by
  unfold main
  rw [h1, h2, h3, h5]
  simp [h4]

theorem mainBody_no_tests (s : Settings) (p a : Option String)
    (env : MainEnv) (hr : env.raiseDuringRun = false)
    (he : env.outcomes = []) :
    (mainBody s p a env).2 = [Eff.stderrWrite "no tests found\n"] := by
  unfold mainBody
  by_cases hd : s.debug <;> by_cases hx : s.xunit_file.isSome <;>
    simp [hr, he, hd, hx, runcli, runxunit]

theorem main_fst_run (s : Settings) (env : MainEnv) (sh : String)
    (h1 : env.cfgErr = none) (h2 : _conflicts s = none)
    (h3 : env.whichShell = some sh)
    (h4 : (s.interactive && env.whichPatch.isNone) = false)
    (h5 : s.tests.filter (fun p => !(env.pathExists p)) = [])
    (hr : env.raiseDuringRun = false) :
    (main s env).1 =
      (if env.outcomes.isEmpty then Except.ok 2
       else Except.ok
         (if env.outcomes.any (fun w => !w.result.diff.isEmpty) then 1
          else 0)) := by
  rw [main_run_eq s env sh h1 h2 h3 h4 h5]
  exact mainBody_exit s _ _ env hr

/-! ## The claims -/

/-- C1: for every run that passes the pre-execution checks and completes
normally, `main`'s exit status is 0 when every executed test produced an
empty diff and 1 when at least one test's diff is non-empty; the distinct
exit code 2 is used for usage/configuration errors (here: a malformed
configuration file), so the exit status aggregates per-test pass/fail
results exactly. -/
theorem main_exit_code_aggregation (s : Settings) (env : MainEnv)
    (sh : String)
    (h1 : env.cfgErr = none) (h2 : _conflicts s = none)
    (h3 : env.whichShell = some sh)
    (h4 : (s.interactive && env.whichPatch.isNone) = false)
    (h5 : s.tests.filter (fun p => !(env.pathExists p)) = [])
    (hr : env.raiseDuringRun = false)
    (ht : env.outcomes ≠ []) :
    ((∀ w ∈ env.outcomes, w.result.diff = []) →
      (main s env).1 = Except.ok 0) ∧
    ((∃ w ∈ env.outcomes, w.result.diff ≠ []) →
      (main s env).1 = Except.ok 1) ∧
    (∀ msg, (main s { env with cfgErr := some msg }).1 = Except.ok 2) := by
  have hm := main_run_eq s env sh h1 h2 h3 h4 h5
  have hfst : (main s env).1 =
      (if env.outcomes.isEmpty then Except.ok 2
       else Except.ok
         (if env.outcomes.any (fun w => !w.result.diff.isEmpty) then 1
          else 0)) := by
    rw [hm]
    exact mainBody_exit s _ _ env hr
  have hne : env.outcomes.isEmpty = false := by
    rcases h : env.outcomes with _ | _
    · exact absurd h ht
    · rfl
  refine ⟨?_, ?_, ?_⟩
  · intro hall
    have ha : env.outcomes.any (fun w => !w.result.diff.isEmpty) = false := by
      rw [List.any_eq_false]
      intro w hw
      simp [hall w hw]
    rw [hfst, hne, ha]
    simp
  · rintro ⟨w, hw, hd⟩
    have ha : env.outcomes.any (fun w => !w.result.diff.isEmpty) = true :=
      List.any_eq_true.mpr ⟨w, hw, by simp [List.isEmpty_iff, hd]⟩
    rw [hfst, hne, ha]
    simp
  · intro msg
    simp [main]

/-- C1 witness: with one passing and one failing test discovered, `main`
exits with code 1; with a malformed configuration it exits with 2. -/
theorem main_exit_code_aggregation_witness :
    (main sampleSettings sampleEnv).1 = Except.ok 1 ∧
    (main sampleSettings
      { sampleEnv with cfgErr := some "bad" }).1 = Except.ok 2 := by
  have h := main_exit_code_aggregation sampleSettings sampleEnv "/bin/sh"
    rfl rfl rfl rfl rfl rfl (by decide)
  exact ⟨h.2.1 ⟨sampleFail, by decide, by decide⟩, h.2.2 "bad"⟩

/-- C2: when the configuration file holds a malformed value, or mutually
exclusive options are combined, or the shell executable cannot be found on
PATH, `main` writes the error to stderr and returns exit code 2; in all
three cases every emitted effect is a stderr write, so no sandbox temp
directory is created, no test is executed, and nothing is retried. -/
theorem main_configuration_errors (s : Settings) (env : MainEnv) :
    (∀ msg, env.cfgErr = some msg →
      main s env = (Except.ok 2,
        [Eff.stderrWrite (usage ++ "\n"),
         Eff.stderrWrite ("prysk: error: " ++ msg ++ "\n")])) ∧
    (∀ a b, env.cfgErr = none → _conflicts s = some (a, b) →
      main s env = (Except.ok 2,
        [Eff.stderrWrite ("options " ++ a ++ " and " ++ b ++
          " are mutually exclusive\n")])) ∧
    (env.cfgErr = none → _conflicts s = none → env.whichShell = none →
      main s env = (Except.ok 2,
        [Eff.stderrWrite ("shell not found: " ++ s.shell ++ "\n")])) ∧
    ((env.cfgErr.isSome ∨ (_conflicts s).isSome ∨ env.whichShell = none) →
      ∀ e ∈ (main s env).2, ∃ m, e = Eff.stderrWrite m) := by
  refine ⟨?_, ?_, ?_, ?_⟩
  · intro msg h
    simp [main, h]
  · intro a b h1 h2
    simp [main, h1, h2]
  · intro h1 h2 h3
    simp [main, h1, h2, h3]
  · intro hcase e he
    rcases hc : env.cfgErr with _ | msg
    · rcases hcf : _conflicts s with _ | c
      · rcases hs : env.whichShell with _ | sh
        · simp [main, hc, hcf, hs] at he
          exact ⟨_, he⟩
        · rcases hcase with h | h | h
          · simp [hc] at h
          · simp [hcf] at h
          · rw [hs] at h
            exact absurd h (by simp)
      · simp [main, hc, hcf] at he
        exact ⟨_, he⟩
    · simp [main, hc] at he
      rcases he with he | he
      · exact ⟨_, he⟩
      · exact ⟨_, he⟩

/-- C2 witness: a malformed `--indent` value from the config file makes
`main` report the error and return 2 with nothing but stderr writes. -/
theorem main_configuration_errors_witness :
    main sampleSettings
      { sampleEnv with cfgErr := some "--indent: invalid integer value" } =
    (Except.ok 2,
      [Eff.stderrWrite (usage ++ "\n"),
       Eff.stderrWrite ("prysk: error: " ++
         "--indent: invalid integer value" ++ "\n")]) :=
  (main_configuration_errors sampleSettings
    { sampleEnv with
        cfgErr := some "--indent: invalid integer value" }).1
    "--indent: invalid integer value" rfl

/-- C3: when at least one named test path does not exist, `main` reports
the first missing path and aborts the whole run with exit code 2; no test
is executed and no sandbox is created. -/
theorem main_discovery_error (s : Settings) (env : MainEnv)
    (sh bad : String) (rest : List String)
    (h1 : env.cfgErr = none) (h2 : _conflicts s = none)
    (h3 : env.whichShell = some sh)
    (h4 : (s.interactive && env.whichPatch.isNone) = false)
    (h5 : s.tests.filter (fun p => !(env.pathExists p)) = bad :: rest) :
    main s env =
      (Except.ok 2, [Eff.stderrWrite ("no such file: " ++ bad ++ "\n")]) ∧
    (∀ p, Eff.runTest p ∉ (main s env).2) ∧
    (∀ d, Eff.mkdtemp d ∉ (main s env).2) := by
  have hm : main s env =
      (Except.ok 2,
        [Eff.stderrWrite ("no such file: " ++ bad ++ "\n")]) := by
    unfold main
    rw [h1, h2, h3, h5]
    simp [h4]
  refine ⟨hm, ?_, ?_⟩
  · intro p hp
    rw [hm] at hp
    simp at hp
  · intro d hd
    rw [hm] at hd
    simp at hd

/-- C3 witness: with `b.t` missing from the filesystem, `main` reports it
and exits 2. -/
theorem main_discovery_error_witness :
    main sampleSettings
      { sampleEnv with pathExists := fun p => p == "a.t" } =
    (Except.ok 2, [Eff.stderrWrite ("no such file: " ++ "b.t" ++ "\n")]) :=
  (main_discovery_error sampleSettings
    { sampleEnv with pathExists := fun p => p == "a.t" }
    "/bin/sh" "b.t" [] rfl rfl rfl rfl rfl).1

/-- C9: when the discovered-test stream yields nothing at all, `main`
writes "no tests found" to stderr and returns exit code 2 rather than 0,
even though no test failed. -/
theorem main_no_tests_found (s : Settings) (env : MainEnv) (sh : String)
    (h1 : env.cfgErr = none) (h2 : _conflicts s = none)
    (h3 : env.whichShell = some sh)
    (h4 : (s.interactive && env.whichPatch.isNone) = false)
    (h5 : s.tests.filter (fun p => !(env.pathExists p)) = [])
    (hr : env.raiseDuringRun = false)
    (he : env.outcomes = []) :
    (main s env).1 = Except.ok 2 ∧
    Eff.stderrWrite "no tests found\n" ∈ (main s env).2 := by
  have hm := main_run_eq s env sh h1 h2 h3 h4 h5
  constructor
  · have hfst : (main s env).1 =
        (if env.outcomes.isEmpty then Except.ok 2
         else Except.ok
           (if env.outcomes.any (fun w => !w.result.diff.isEmpty) then 1
            else 0)) := by
      rw [hm]
      exact mainBody_exit s _ _ env hr
    rw [hfst, he]
    rfl
  · rw [hm]
    simp [mainBody_no_tests s _ _ env hr he]

/-- C9 witness: a run over an empty test stream exits 2 and reports "no
tests found". -/
theorem main_no_tests_found_witness :
    (main sampleSettings { sampleEnv with outcomes := [] }).1 =
      Except.ok 2 :=
  (main_no_tests_found sampleSettings { sampleEnv with outcomes := [] }
    "/bin/sh" rfl rfl rfl rfl rfl rfl rfl).1

/-- C6: main creates exactly one temporary sandbox root directory per
whole run, and on every exit path — normal return or escaping exception
(the theorem does not constrain `raiseDuringRun`) — that directory is
recursively removed, unless the keep-tmpdir setting is given, in which
case no removal happens and its path is announced on stdout. -/
theorem main_tmpdir_lifecycle (s : Settings) (env : MainEnv) (sh : String)
    (h1 : env.cfgErr = none) (h2 : _conflicts s = none)
    (h3 : env.whichShell = some sh)
    (h4 : (s.interactive && env.whichPatch.isNone) = false)
    (h5 : s.tests.filter (fun p => !(env.pathExists p)) = []) :
    ((main s env).2.countP isMkdtemp = 1) ∧
    (s.keep_tmpdir = false → Eff.rmtree env.tmpname ∈ (main s env).2) ∧
    (s.keep_tmpdir = true →
      (∀ d, Eff.rmtree d ∉ (main s env).2) ∧
      Eff.stdoutWrite ("# Kept temporary directory: " ++ env.tmpname ++
        "\n") ∈ (main s env).2) := by
  have hm := main_run_eq s env sh h1 h2 h3 h4 h5
  have hmb := mainBody_effs s
    (if s.interactive then env.whichPatch else none)
    (if s.yes then some "y" else if s.no then some "n" else none) env
  have hz : (mainBody s
      (if s.interactive then env.whichPatch else none)
      (if s.yes then some "y" else if s.no then some "n" else none)
      env).2.countP isMkdtemp = 0 :=
    List.countP_eq_zero.mpr (fun e he => by
      simp [not_sandbox_not_mkdtemp e (hmb e he)])
  refine ⟨?_, ?_, ?_⟩
  · rw [hm]
    by_cases hk : s.keep_tmpdir <;>
      simp [hk, List.countP_append, List.countP_cons, hz, isMkdtemp]
  · intro hk
    rw [hm]
    simp [hk]
  · intro hk
    constructor
    · intro d hd
      rw [hm] at hd
      simp [hk] at hd
      have := hmb _ hd
      simp [sandboxEff] at this
    · rw [hm]
      simp [hk]

/-- C6 witness: in a normal run the temp directory is created once and
removed; in a run an exception escapes with keep-tmpdir set, it is kept
and announced. -/
theorem main_tmpdir_lifecycle_witness :
    Eff.rmtree "/tmp/prysk-tests-x" ∈ (main sampleSettings sampleEnv).2 ∧
    Eff.stdoutWrite ("# Kept temporary directory: " ++
      "/tmp/prysk-tests-x" ++ "\n") ∈
      (main { sampleSettings with keep_tmpdir := true }
        { sampleEnv with raiseDuringRun := true }).2 :=
  ⟨(main_tmpdir_lifecycle sampleSettings sampleEnv "/bin/sh"
      rfl rfl rfl rfl rfl).2.1 rfl,
   ((main_tmpdir_lifecycle { sampleSettings with keep_tmpdir := true }
      { sampleEnv with raiseDuringRun := true } "/bin/sh"
      rfl rfl rfl rfl rfl).2.2 rfl).2⟩

/-- C4: for every test wrapped by `runcli`: a failing test (non-empty
diff) writes the lines of `post_output` to the sibling file
`<test path>.err`; a passing test (empty diff) removes that file when it
exists from an earlier run; and for a passing, empty, or skipped test the
wrapper writes no file at all. -/
theorem runcli_err_file_frame (cfg : CliConfig) (w : WrapInput)
    (ref post : List String) :
    (w.result.refout = some ref → w.result.postout = some post →
      w.result.diff ≠ [] →
      Eff.writeFile (errpathOf w.path) post ∈ (testwrapper cfg w).effs) ∧
    (w.result.refout = some ref → w.result.postout = some post →
      w.result.diff = [] → w.errExists = true →
      Eff.removeFile (errpathOf w.path) ∈ (testwrapper cfg w).effs) ∧
    ((w.result.refout = none ∨ w.result.postout = none ∨
        w.result.diff = []) →
      ∀ p ls, Eff.writeFile p ls ∉ (testwrapper cfg w).effs) := by
  refine ⟨?_, ?_, ?_⟩
  · intro h1 h2 h3
    have hne : w.result.diff.isEmpty = false := by
      rcases hd : w.result.diff with _ | _
      · exact absurd hd h3
      · rfl
    simp [testwrapper, h1, h2, hne]
  · intro h1 h2 h3 h4
    simp [testwrapper, h1, h2, h3, h4]
  · intro hcase p ls hmem
    rcases hr : w.result.refout with _ | ref'
    · cases hv : cfg.verbose <;>
        simp [testwrapper, hr, hv, _log] at hmem
    · rcases hp : w.result.postout with _ | post'
      · cases hv : cfg.verbose <;>
          simp [testwrapper, hr, hp, hv, _log] at hmem
      · have hd : w.result.diff = [] := by
          rcases hcase with h | h | h
          · rw [hr] at h
            exact absurd h (by simp)
          · rw [hp] at h
            exact absurd h (by simp)
          · exact h
        cases hv : cfg.verbose <;> by_cases he : w.errExists <;>
          simp [testwrapper, hr, hp, hd, hv, he, _log] at hmem

/-- C4 witness: the sample failing test writes its `post_output` to
`b.t.err`; the sample passing test, with a stale `.err` present, removes
it. -/
theorem runcli_err_file_frame_witness :
    Eff.writeFile (errpathOf "b.t") ["y\n"] ∈
      (testwrapper sampleCfg sampleFail).effs ∧
    Eff.removeFile (errpathOf "a.t") ∈
      (testwrapper sampleCfg { samplePass with errExists := true }).effs :=
  ⟨(runcli_err_file_frame sampleCfg sampleFail ["x\n"] ["y\n"]).1
      rfl rfl (by decide),
   (runcli_err_file_frame sampleCfg { samplePass with errExists := true }
      ["x\n"] ["x\n"]).2.1 rfl rfl rfl rfl⟩

/-- C8: runcli distinguishes the empty state from the skipped state:
a test with `reference_output` absent logs the "empty" status (verbose;
"s" otherwise), a test with `reference_output` present but `post_output`
absent logs the "skipped" status (verbose; "s" otherwise); both increment
the skipped counter, neither increments the failed counter, and in
neither case is any file written. -/
theorem runcli_empty_vs_skipped (cfg : CliConfig) (w : WrapInput) :
    (w.result.refout = none →
      (testwrapper cfg w).skippedInc = true ∧
      (testwrapper cfg w).failedInc = false ∧
      Eff.stdoutWrite (if cfg.verbose then "empty\n" else "s") ∈
        (testwrapper cfg w).effs ∧
      ∀ p ls, Eff.writeFile p ls ∉ (testwrapper cfg w).effs) ∧
    (∀ ref, w.result.refout = some ref → w.result.postout = none →
      (testwrapper cfg w).skippedInc = true ∧
      (testwrapper cfg w).failedInc = false ∧
      Eff.stdoutWrite (if cfg.verbose then "skipped\n" else "s") ∈
        (testwrapper cfg w).effs ∧
      ∀ p ls, Eff.writeFile p ls ∉ (testwrapper cfg w).effs) := by
  constructor
  · intro h
    refine ⟨by simp [testwrapper, h], by simp [testwrapper, h], ?_, ?_⟩
    · cases hv : cfg.verbose <;> simp [testwrapper, h, hv, _log]
    · intro p ls hmem
      cases hv : cfg.verbose <;>
        simp [testwrapper, h, hv, _log] at hmem
  · intro ref h hp
    refine ⟨by simp [testwrapper, h, hp], by simp [testwrapper, h, hp],
      ?_, ?_⟩
    · cases hv : cfg.verbose <;> simp [testwrapper, h, hp, hv, _log]
    · intro p ls hmem
      cases hv : cfg.verbose <;>
        simp [testwrapper, h, hp, hv, _log] at hmem

/-- C8 witness: an empty test and a skipped test, run verbose, log the two
distinct statuses, count as skipped, not failed, and write nothing. -/
theorem runcli_empty_vs_skipped_witness :
    Eff.stdoutWrite "empty\n" ∈
      (testwrapper { sampleCfg with verbose := true }
        { samplePass with
            result := { refout := none, postout := none, diff := [] }
        }).effs ∧
    Eff.stdoutWrite "skipped\n" ∈
      (testwrapper { sampleCfg with verbose := true }
        { samplePass with
            result := { refout := some ["x\n"], postout := none,
                        diff := [] } }).effs := by
  constructor
  · have h := (runcli_empty_vs_skipped { sampleCfg with verbose := true }
      { samplePass with
          result := { refout := none, postout := none, diff := [] } }).1
      rfl
    exact h.2.2.1
  · have h := (runcli_empty_vs_skipped { sampleCfg with verbose := true }
      { samplePass with
          result := { refout := some ["x\n"], postout := none,
                      diff := [] } }).2 ["x\n"] rfl rfl
    exact h.2.2.1

/-- C5: for a failing test, with quiet set the diff lines are not printed
to stdout, but the failure is still counted — its non-empty diff makes a
run containing it exit with code 1 — and every test of the stream is still
run; with quiet unset the diff lines are printed. -/
theorem runcli_quiet_behavior (cfg : CliConfig) (w : WrapInput)
    (ref post : List String)
    (h1 : w.result.refout = some ref) (h2 : w.result.postout = some post)
    (h3 : w.result.diff ≠ []) :
    (cfg.quiet = true →
      ∀ l, Eff.stdoutWriteB l ∉ (testwrapper cfg w).effs) ∧
    (cfg.quiet = false →
      ∀ l ∈ w.result.diff,
        Eff.stdoutWriteB l ∈ (testwrapper cfg w).effs) ∧
    (testwrapper cfg w).failedInc = true ∧
    (∀ ts, ∀ w' ∈ ts, Eff.runTest w'.path ∈ (runcli cfg ts).1) ∧
    (∀ s env sh, env.cfgErr = none → _conflicts s = none →
      env.whichShell = some sh →
      (s.interactive && env.whichPatch.isNone) = false →
      s.tests.filter (fun p => !(env.pathExists p)) = [] →
      env.raiseDuringRun = false → w ∈ env.outcomes →
      (main s env).1 = Except.ok 1) := by
  have hne : w.result.diff.isEmpty = false := by
    rcases hd : w.result.diff with _ | _
    · exact absurd hd h3
    · rfl
  refine ⟨?_, ?_, ?_, ?_, ?_⟩
  · intro hq l hmem
    cases hv : cfg.verbose <;>
      simp [testwrapper, h1, h2, hne, hq, hv, _log] at hmem
  · intro hq l hl
    simp [testwrapper, h1, h2, hne, hq, hl]
  · simp [testwrapper, h1, h2, hne]
  · exact fun ts => runcli_runs_all cfg ts
  · intro s env sh e1 e2 e3 e4 e5 er hw
    have hfst := main_fst_run s env sh e1 e2 e3 e4 e5 er
    have hnil : env.outcomes.isEmpty = false := by
      rcases h : env.outcomes with _ | _
      · rw [h] at hw
        simp at hw
      · rfl
    have ha : env.outcomes.any (fun x => !x.result.diff.isEmpty) = true :=
      List.any_eq_true.mpr ⟨w, hw, by simp [List.isEmpty_iff, h3]⟩
    rw [hfst, hnil, ha]
    simp

/-- C5 witness: with quiet, the sample failing test prints no diff byte
line while a run containing it exits 1; without quiet its diff lines are
printed. -/
theorem runcli_quiet_behavior_witness :
    (∀ l, Eff.stdoutWriteB l ∉
      (testwrapper { sampleCfg with quiet := true } sampleFail).effs) ∧
    Eff.stdoutWriteB "-x\n" ∈ (testwrapper sampleCfg sampleFail).effs ∧
    (main { sampleSettings with quiet := true } sampleEnv).1 =
      Except.ok 1 := by
  have hq := runcli_quiet_behavior { sampleCfg with quiet := true }
    sampleFail ["x\n"] ["y\n"] rfl rfl (by decide)
  have hn := runcli_quiet_behavior sampleCfg sampleFail ["x\n"] ["y\n"]
    rfl rfl (by decide)
  exact ⟨hq.1 rfl, hn.2.1 rfl "-x\n" (by decide),
    hq.2.2.2.2 { sampleSettings with quiet := true } sampleEnv "/bin/sh"
      rfl rfl rfl rfl rfl rfl (by decide)⟩

/-- C7: during interactive merge of a failing test (prompt answered "y"),
when the external `patch` command exits non-zero the merge is abandoned: a
"merge failed" message is printed, the `.err` artifact written for the
failure is not removed, and every test of the stream is still run; the
`.err` file is removed exactly when `patch` exits with status 0. -/
theorem runcli_merge_patch (cfg : CliConfig) (w : WrapInput)
    (ref post : List String)
    (h1 : w.result.refout = some ref) (h2 : w.result.postout = some post)
    (h3 : w.result.diff ≠ []) (hq : cfg.quiet = false)
    (hpc : cfg.patchcmd.isSome = true)
    (hy : _prompt "Accept this change?" "yN" cfg.answer w.stdin =
      some "y") :
    (w.patchRetcode ≠ 0 →
      Eff.stdoutWrite (w.path ++ ": merge failed\n") ∈
        (testwrapper cfg w).effs ∧
      (∀ p, Eff.removeFile p ∉ (testwrapper cfg w).effs) ∧
      Eff.writeFile (errpathOf w.path) post ∈ (testwrapper cfg w).effs) ∧
    (Eff.removeFile (errpathOf w.path) ∈ (testwrapper cfg w).effs ↔
      w.patchRetcode = 0) ∧
    Eff.runPatch w.path ∈ (testwrapper cfg w).effs ∧
    (∀ ts, ∀ w' ∈ ts, Eff.runTest w'.path ∈ (runcli cfg ts).1) := by
  have hne : w.result.diff.isEmpty = false := by
    rcases hd : w.result.diff with _ | _
    · exact absurd hd h3
    · rfl
  refine ⟨?_, ?_, ?_, ?_⟩
  · intro hret
    have hpf : _patch w.patchRetcode = false := by
      simp [_patch, hret]
    refine ⟨?_, ?_, ?_⟩
    · simp [testwrapper, h1, h2, hne, hq, hpc, hy, hpf, _log]
    · intro p hmem
      cases hv : cfg.verbose <;>
        simp [testwrapper, h1, h2, hne, hq, hpc, hy, hpf, hv,
          _log] at hmem
    · simp [testwrapper, h1, h2, hne, hq, hpc, hy, hpf]
  · constructor
    · intro hmem
      by_contra hret
      have hpf : _patch w.patchRetcode = false := by
        simp [_patch, hret]
      cases hv : cfg.verbose <;>
        simp [testwrapper, h1, h2, hne, hq, hpc, hy, hpf, hv,
          _log] at hmem
    · intro hret
      have hpt : _patch w.patchRetcode = true := by
        simp [_patch, hret]
      simp [testwrapper, h1, h2, hne, hq, hpc, hy, hpt]
  · simp [testwrapper, h1, h2, hne, hq, hpc, hy]
  · exact fun ts => runcli_runs_all cfg ts

/-- C7 witness: the sample failing test under interactive merge with a
failing `patch` (exit 1) prints "merge failed" and keeps `b.t.err`; with
`patch` exiting 0 the `.err` file is removed. -/
theorem runcli_merge_patch_witness :
    Eff.stdoutWrite ("b.t" ++ ": merge failed\n") ∈
      (testwrapper sampleCfgPatch sampleFail).effs ∧
    Eff.removeFile (errpathOf "b.t") ∉
      (testwrapper sampleCfgPatch sampleFail).effs ∧
    Eff.removeFile (errpathOf "b.t") ∈
      (testwrapper sampleCfgPatch
        { sampleFail with patchRetcode := 0 }).effs := by
  have hf := runcli_merge_patch sampleCfgPatch sampleFail ["x\n"] ["y\n"]
    rfl rfl (by decide) rfl rfl rfl
  have hs := runcli_merge_patch sampleCfgPatch
    { sampleFail with patchRetcode := 0 } ["x\n"] ["y\n"]
    rfl rfl (by decide) rfl rfl rfl
  exact ⟨(hf.1 (by decide)).1, (hf.1 (by decide)).2.1 _,
    hs.2.1.mpr rfl⟩

theorem pyLower_empty_iff (s : String) : pyLower s = "" ↔ s = "" := by
  unfold pyLower
  rcases s with ⟨l⟩
  rcases l with _ | ⟨a, t⟩
  · simp
  · constructor
    · intro h
      rw [String.ext_iff] at h
      simp at h
    · intro h
      rw [String.ext_iff] at h
      simp at h

/-- C10: the answer policy of `_prompt`: a non-None `auto` is returned verbatim
regardless of stdin (even when it is not a character of `answers`); with
`auto = None` an empty input line returns the first uppercase character of
`answers` (which is uppercase, so with answers "yN" the empty-input
default "N" compares unequal to "y" and the merge is declined); a
non-empty input is lowercased and accepted exactly when it occurs in the
lowercased answers string, otherwise the loop asks again. -/
theorem prompt_answer_policy (q answers line : String)
    (stdin : List String) (c : Char) (cs : List Char) :
    (∀ auto st, _prompt q answers (some auto) st = some auto) ∧
    (promptDefault answers = c :: cs → pyStrip line = "" →
      _prompt q answers none (line :: stdin) = some (String.mk [c]) ∧
      c.isUpper = true) ∧
    (pyStrip line ≠ "" →
      _prompt q answers none (line :: stdin) =
        (if occursIn (pyLower (pyStrip line)).toList
            (pyLower answers).toList
         then some (pyLower (pyStrip line))
         else promptLoop answers stdin)) ∧
    (_prompt q "yN" none [""] = some "N" ∧ ("N" : String) ≠ "y") := by
  refine ⟨fun auto st => rfl, ?_, ?_, ?_, ?_⟩
  · intro hd hstrip
    constructor
    · show promptLoop answers (line :: stdin) = some (String.mk [c])
      have hl : pyLower (pyStrip line) = "" := by
        rw [hstrip]
        rfl
      simp [promptLoop, hl, hd]
    · have hc : c ∈ promptDefault answers := by
        rw [hd]
        exact List.mem_cons_self _ _
      unfold promptDefault at hc
      exact (List.mem_filter.mp hc).2
  · intro hne
    have ha : pyLower (pyStrip line) ≠ "" := fun h =>
      hne ((pyLower_empty_iff _).mp h)
    show promptLoop answers (line :: stdin) = _
    simp only [promptLoop]
    rw [if_neg ha]
  · rfl
  · decide

/-- C10 witness: with answers "yN", an empty input line yields the
uppercase default "N", which declines the merge. -/
theorem prompt_answer_policy_witness :
    _prompt "Accept this change?" "yN" none [""] = some (String.mk ['N']) ∧
    ('N').isUpper = true :=
  (prompt_answer_policy "Accept this change?" "yN" "" [] 'N' []).2.1
    (by decide) (by decide)

end Prysk
